import Mathlib

/-!
Shallow embedding of the yelp_clog loggers (src/clog/loggers.py) together
with the stream-name sanitizer used by them.

Modelling choices:
* Lines are byte sequences (`List Nat`); a textual line is UTF-8 encoded
  first, exactly as `log_line` does with `line.encode('utf-8')`.
* The mutable `ScribeLogger` object is the record `ScribeLogger` below
  (fields `connected`, `last_connect_time`, `retry_interval`, `_birth_pid`,
  mirroring `__init__`).
* The outside world (clock, process id, transport open outcome, RPC send
  outcome, and whether the injected `report_status` callback raises) is an
  explicit environment record supplied to each call.
* Every call returns a `StepResult`: the state after the call (Python
  mutates in place, so the state survives an escaping exception), the list
  of observable events (successful and failed sends, open attempts,
  status reports, transport closes), and the exception, if one escapes.
* Timestamps are integers; the code only compares differences of
  `time.time()` values against `retry_interval`, so the ordered-ring
  structure of `Int` is all that matters.
-/

namespace Clog

/-- MAX_LINE_SIZE_IN_BYTES from loggers.py (50 MB). -/
def MAX_LINE_SIZE_IN_BYTES : Nat := 52428800

/-- WARNING_LINE_SIZE_IN_BYTES from loggers.py (5 MB). -/
def WARNING_LINE_SIZE_IN_BYTES : Nat := 5242880

/-- WHO_CLOG_LARGE_LINE_STREAM from loggers.py. -/
def WHO_CLOG_LARGE_LINE_STREAM : String := "tmp_who_clog_large_line"

/-- Modelled from the spec: the stream-name sanitizer `scribify` lives in
clog/utils.py, which is not part of the provided sources; the spec says it
keeps characters in [A-Za-z0-9_-] and maps every other character to an
underscore, one replacement per character. This predicate decides whether a
character is kept. -/
def scribifyAllowed (c : Char) : Bool :=
  c.isAlphanum || c == '_' || c == '-'

/-- Modelled from the spec: per-character action of the sanitizer. -/
def scribifyChar (c : Char) : Char :=
  if scribifyAllowed c then c else '_'

/-- Modelled from the spec: `scribify` from clog/utils.py (absent from the
provided sources), mapping each character of the stream name through
`scribifyChar`. -/
def scribify (s : String) : String :=
  ⟨s.data.map scribifyChar⟩

/-- UTF-8 encoding of a single character, as `str.encode('utf-8')` does
byte for byte. -/
def utf8Bytes (c : Char) : List Nat :=
  let n := c.toNat
  if n < 128 then [n]
  else if n < 2048 then [192 + n / 64, 128 + n % 64]
  else if n < 65536 then [224 + n / 4096, 128 + (n / 64) % 64, 128 + n % 64]
  else [240 + n / 262144, 128 + (n / 4096) % 64, 128 + (n / 64) % 64, 128 + n % 64]

/-- UTF-8 encoding of a string as a byte list. -/
def encodeStr (s : String) : List Nat :=
  (s.data.map utf8Bytes).flatten

/-- A `log_line` argument: either text (Python `str`) or bytes. -/
inductive LineInput where
  | text (s : String)
  | bytes (b : List Nat)
deriving DecidableEq

/-- The encoding step at the top of `log_line`:
`if isinstance(line, str): line = line.encode('utf-8')`. -/
def encodeLine : LineInput → List Nat
  | .text s => encodeStr s
  | .bytes b => b

/-- Observable I/O events of one call, in order of occurrence. -/
inductive Ev where
  | sent (category : String) (message : List Nat)
  | sendFailed (category : String) (message : List Nat)
  | openAttempt (ok : Bool)
  | statusReport (isError : Bool) (msg : String)
  | closedTransport
deriving DecidableEq

/-- Successful RPC deliveries are the `sent` events. -/
def Ev.isDelivery : Ev → Bool
  | .sent _ _ => true
  | _ => false

/-- Exceptions that can escape a call. -/
inductive PyErr where
  | scribeIsNotForkSafe
  | logLineIsTooLong (msg : String)
  | reportRaised
  | assertionFailed
deriving DecidableEq

/-- Mutable state of a `ScribeLogger` instance (the fields set up in
`__init__` that the logging path reads and writes). -/
structure ScribeLogger where
  connected : Bool
  last_connect_time : Int
  retry_interval : Int
  birth_pid : Nat
deriving DecidableEq

/-- Result of one call on a `ScribeLogger`: state after the call, emitted
events, and the escaping exception if any. -/
structure StepResult where
  st : ScribeLogger
  trace : List Ev
  err : Option PyErr
deriving DecidableEq

/-- Environment of one `_maybe_reconnect` call: the value of `time.time()`,
whether `transport.open()` succeeds, and whether the `report_status`
callback raises when invoked. -/
structure ReconnectEnv where
  now : Int
  openOk : Bool
  reportRaises : Bool
deriving DecidableEq

/-- The message reported by `_maybe_reconnect` on a failed connect. -/
def connectFailMsg : String := "yelp_lib.clog failed to connect to scribe server"

/-- The message reported on an RPC send failure, built from the exception
type and text as in `_log_line_no_size_limit` (note the double space coming
from the two adjacent string literals in the source). -/
def sendFailMsg (excType excMsg : String) : String :=
  "yelp_lib.clog failed to log to scribe server with  exception: "
    ++ excType ++ "(" ++ excMsg ++ ")"

/-- The informational message reported for an oversized-but-allowed line. -/
def oversizeNoticeMsg : String :=
  "The log line size is larger than 5242880 bytes (monitored in \x27tmp_who_clog_large_line\x27)"

/-- The error message reported before raising on a too-long line. -/
def dropNoticeMsg : String :=
  "The log line is dropped (line size larger than 52428800 bytes)"

/-- The message carried by `LogLineIsTooLongError`. -/
def tooLongMsg : String := "The max log line size allowed is 52428800 bytes"

/-- `ScribeLogger._maybe_reconnect`: asserts the logger is disconnected,
then, only when `now - last_connect_time > retry_interval`, tries to open
the transport; on success it becomes connected, on failure it records
`last_connect_time = now` and reports an error status (the status callback
itself may raise, in which case that exception escapes). -/
def ScribeLogger.maybe_reconnect (st : ScribeLogger) (env : ReconnectEnv) : StepResult :=
  if st.connected then ⟨st, [], some .assertionFailed⟩
  else if env.now - st.last_connect_time > st.retry_interval then
    if env.openOk then
      ⟨{ st with connected := true }, [.openAttempt true], none⟩
    else if env.reportRaises then
      ⟨{ st with last_connect_time := env.now }, [.openAttempt false], some .reportRaised⟩
    else
      ⟨{ st with last_connect_time := env.now },
        [.openAttempt false, .statusReport true connectFailMsg], none⟩
  else ⟨st, [], none⟩

/-- Environment of one `_log_line_no_size_limit` call: the current pid,
the environment of the reconnect that runs when disconnected, the RPC send
outcome, the type and text of the send exception when the send fails,
whether the send-failure status report raises, the `time.time()` recorded
after a send failure, and the environment of the post-failure reconnect. -/
structure SendEnv where
  pid : Nat
  reconnect : ReconnectEnv
  sendOk : Bool
  excType : String
  excMsg : String
  failReportRaises : Bool
  failNow : Int
  retryReconnect : ReconnectEnv
deriving DecidableEq

/-- `ScribeLogger._log_line_no_size_limit`: fork-safety check, reconnect
when disconnected, then (when connected) send a LogEntry with category
`scribify stream` and message `line + b'\n'`; on send failure report an
error status, close the transport, record `last_connect_time`, and attempt
an immediate reconnect unless the status report raised. -/
def ScribeLogger.log_line_no_size_limit (st : ScribeLogger) (env : SendEnv)
    (stream : String) (line : List Nat) : StepResult :=
  if env.pid ≠ st.birth_pid then ⟨st, [], some .scribeIsNotForkSafe⟩
  else
    let r1 := if st.connected then (⟨st, [], none⟩ : StepResult)
              else st.maybe_reconnect env.reconnect
    if r1.err.isSome then r1
    else if r1.st.connected then
      let category := scribify stream
      let message := line ++ [10]
      if env.sendOk then
        ⟨r1.st, r1.trace ++ [.sent category message], none⟩
      else
        let closedSt : ScribeLogger :=
          { r1.st with connected := false, last_connect_time := env.failNow }
        if env.failReportRaises then
          ⟨closedSt, r1.trace ++ [.sendFailed category message, .closedTransport],
            some .reportRaised⟩
        else
          let r2 := closedSt.maybe_reconnect env.retryReconnect
          ⟨r2.st,
            r1.trace ++ [.sendFailed category message,
              .statusReport true (sendFailMsg env.excType env.excMsg),
              .closedTransport] ++ r2.trace,
            r2.err⟩
    else r1

/-- Escaping the characters of a JSON string the way `simplejson.dumps`
does by default (ensure_ascii): everything outside printable ASCII becomes
a backslash escape, astral characters becoming a surrogate pair. -/
def jsonEscapeChar (c : Char) : String :=
  let n := c.toNat
  let hexDigit : Nat → Char := fun d => if d < 10 then Char.ofNat (48 + d) else Char.ofNat (87 + d)
  let uEscape : Nat → String := fun m =>
    ⟨['\\', 'u', hexDigit (m / 4096 % 16), hexDigit (m / 256 % 16),
      hexDigit (m / 16 % 16), hexDigit (m % 16)]⟩
  if c == '"' then "\\\""
  else if c == '\\' then "\\\\"
  else if n == 8 then "\\b"
  else if n == 9 then "\\t"
  else if n == 10 then "\\n"
  else if n == 12 then "\\f"
  else if n == 13 then "\\r"
  else if n < 32 then uEscape n
  else if n < 127 then ⟨[c]⟩
  else if n < 65536 then uEscape n
  else uEscape (55296 + (n - 65536) / 1024) ++ uEscape (56320 + (n - 65536) % 1024)

/-- A JSON string literal for `s`. -/
def jsonDumpString (s : String) : String :=
  "\"" ++ String.join (s.data.map jsonEscapeChar) ++ "\""

/-- `json.dumps(origin_info)` for the dict built in `log_line`, whose keys
are inserted in the order stream, line_size, traceback. -/
def originReportJson (stream : String) (lineSize : Nat) (tb : String) : String :=
  "\x7b\"stream\": " ++ jsonDumpString stream
    ++ ", \"line_size\": " ++ toString lineSize
    ++ ", \"traceback\": " ++ jsonDumpString tb ++ "\x7d"

/-- Environment of one `log_line` call: one `SendEnv` per possible
`_log_line_no_size_limit` call (the line itself, then the origin report),
the joined `traceback.format_stack()` text, and whether each of the two
`report_status` invocations made directly by `log_line` raises. -/
structure LogLineEnv where
  send1 : SendEnv
  send2 : SendEnv
  tb : String
  oversizeReportRaises : Bool
  dropReportRaises : Bool
deriving DecidableEq

/-- `ScribeLogger.log_line`: encode text to UTF-8, then triage by byte
length: at most WARNING_LINE_SIZE_IN_BYTES, deliver the line; above that
but at most MAX_LINE_SIZE_IN_BYTES, deliver the line, then deliver a JSON
origin report to WHO_CLOG_LARGE_LINE_STREAM and report an informational
status; above MAX, report an error status and raise
`LogLineIsTooLongError`. -/
def ScribeLogger.log_line (st : ScribeLogger) (env : LogLineEnv)
    (stream : String) (input : LineInput) : StepResult :=
  let line := encodeLine input
  if line.length ≤ WARNING_LINE_SIZE_IN_BYTES then
    st.log_line_no_size_limit env.send1 stream line
  else if line.length ≤ MAX_LINE_SIZE_IN_BYTES then
    let r1 := st.log_line_no_size_limit env.send1 stream line
    if r1.err.isSome then r1
    else
      let report := encodeStr (originReportJson stream line.length env.tb)
      let r2 := r1.st.log_line_no_size_limit env.send2 WHO_CLOG_LARGE_LINE_STREAM report
      if r2.err.isSome then ⟨r2.st, r1.trace ++ r2.trace, r2.err⟩
      else if env.oversizeReportRaises then
        ⟨r2.st, r1.trace ++ r2.trace, some .reportRaised⟩
      else
        ⟨r2.st, r1.trace ++ r2.trace ++ [.statusReport false oversizeNoticeMsg], none⟩
  else
    if env.dropReportRaises then ⟨st, [], some .reportRaised⟩
    else ⟨st, [.statusReport true dropNoticeMsg], some (.logLineIsTooLong tooLongMsg)⟩

/-- State of a `FileLogger`: the per-stream contents written so far, keyed
by stream name in order of first use (`self.stream_files`, with each file
modelled by the bytes appended to it since it was opened). -/
structure FileLogger where
  stream_files : List (String × List Nat)
deriving DecidableEq

/-- Append `bytes` to the file of `stream`, opening (an empty) one on first
use of the stream, as `FileLogger.log_line` does with its lazy
`_create_file`. -/
def fileAppend : List (String × List Nat) → String → List Nat → List (String × List Nat)
  | [], stream, bytes => [(stream, bytes)]
  | (t, c) :: rest, stream, bytes =>
    if t = stream then (t, c ++ bytes) :: rest
    else (t, c) :: fileAppend rest stream bytes

/-- The contents of the file of `stream`, when it has been opened. -/
def fileContents (files : List (String × List Nat)) (stream : String) : Option (List Nat) :=
  (files.find? (fun p => p.1 == stream)).map (·.2)

/-- `FileLogger.log_line`: write the byte-encoded line followed by a single
newline to the lazily opened per-stream file. -/
def FileLogger.log_line (fl : FileLogger) (stream : String) (input : LineInput) : FileLogger :=
  ⟨fileAppend fl.stream_files stream (encodeLine input ++ [10])⟩

/-- `FileLogger.close`: closes every handle; the written contents remain as
they are. -/
def FileLogger.close (fl : FileLogger) : FileLogger := fl

end Clog

/-! ## Path characterization lemmas -/

namespace Clog

/-- Sanitizing the diagnostic stream name leaves it unchanged. -/
lemma scribify_who_clog : scribify WHO_CLOG_LARGE_LINE_STREAM = WHO_CLOG_LARGE_LINE_STREAM := by
  decide

/-- A reconnect whose status callback does not raise lets no exception
escape. -/
lemma maybe_reconnect_err_none (st : ScribeLogger) (env : ReconnectEnv)
    (hconn : st.connected = false) (hrr : env.reportRaises = false) :
    (st.maybe_reconnect env).err = none := by
  rw [ScribeLogger.maybe_reconnect, if_neg (by simp [hconn])]
  split_ifs <;> simp_all

/-- A reconnect whose open fails leaves the logger disconnected. -/
lemma maybe_reconnect_still_disconnected (st : ScribeLogger) (env : ReconnectEnv)
    (hconn : st.connected = false) (hopen : env.openOk = false) :
    (st.maybe_reconnect env).st.connected = false := by
  rw [ScribeLogger.maybe_reconnect, if_neg (by simp [hconn])]
  split_ifs <;> simp_all

/-- Full description of a reconnect whose open would fail and whose status
callback does not raise: attempt-and-report when past the throttle, no-op
otherwise. -/
lemma maybe_reconnect_fail_eq (st : ScribeLogger) (env : ReconnectEnv)
    (hconn : st.connected = false) (hopen : env.openOk = false)
    (hrr : env.reportRaises = false) :
    st.maybe_reconnect env =
      if env.now - st.last_connect_time > st.retry_interval then
        ⟨{ st with last_connect_time := env.now },
          [.openAttempt false, .statusReport true connectFailMsg], none⟩
      else ⟨st, [], none⟩ := by
  rw [ScribeLogger.maybe_reconnect, if_neg (by simp [hconn])]
  split_ifs <;> simp_all

/-- After a fork, `_log_line_no_size_limit` raises at once and emits
nothing. -/
lemma noSize_fork (st : ScribeLogger) (env : SendEnv) (stream : String) (line : List Nat)
    (h : env.pid ≠ st.birth_pid) :
    st.log_line_no_size_limit env stream line = ⟨st, [], some .scribeIsNotForkSafe⟩ := by
  rw [ScribeLogger.log_line_no_size_limit, if_pos h]

/-- Connected and the RPC succeeds: exactly the one delivery happens. -/
lemma noSize_happy (st : ScribeLogger) (env : SendEnv) (stream : String) (line : List Nat)
    (hpid : env.pid = st.birth_pid) (hconn : st.connected = true)
    (hsend : env.sendOk = true) :
    st.log_line_no_size_limit env stream line
      = ⟨st, [.sent (scribify stream) (line ++ [10])], none⟩ := by
  simp [ScribeLogger.log_line_no_size_limit, hpid, hconn, hsend]

/-- Connected but the RPC fails and the status callback reports cleanly:
report, close, stamp the time, and run the throttle-gated reconnect. -/
lemma noSize_send_fail (st : ScribeLogger) (env : SendEnv) (stream : String) (line : List Nat)
    (hpid : env.pid = st.birth_pid) (hconn : st.connected = true)
    (hsend : env.sendOk = false) (hfrr : env.failReportRaises = false) :
    st.log_line_no_size_limit env stream line
      = ⟨(({ st with connected := false, last_connect_time := env.failNow
            } : ScribeLogger).maybe_reconnect env.retryReconnect).st,
          [.sendFailed (scribify stream) (line ++ [10]),
            .statusReport true (sendFailMsg env.excType env.excMsg),
            .closedTransport]
            ++ (({ st with connected := false, last_connect_time := env.failNow
                } : ScribeLogger).maybe_reconnect env.retryReconnect).trace,
          (({ st with connected := false, last_connect_time := env.failNow
            } : ScribeLogger).maybe_reconnect env.retryReconnect).err⟩ := by
  simp [ScribeLogger.log_line_no_size_limit, hpid, hconn, hsend, hfrr]

/-- Connected, the RPC fails and the status callback raises: the transport
is still closed and the time still stamped, but no reconnect runs and the
callback's exception escapes. -/
lemma noSize_send_fail_raises (st : ScribeLogger) (env : SendEnv) (stream : String)
    (line : List Nat)
    (hpid : env.pid = st.birth_pid) (hconn : st.connected = true)
    (hsend : env.sendOk = false) (hfrr : env.failReportRaises = true) :
    st.log_line_no_size_limit env stream line
      = ⟨{ st with connected := false, last_connect_time := env.failNow },
          [.sendFailed (scribify stream) (line ++ [10]), .closedTransport],
          some .reportRaised⟩ := by
  simp [ScribeLogger.log_line_no_size_limit, hpid, hconn, hsend, hfrr]

/-- Disconnected and the reconnect cannot open: the call reduces to the
reconnect attempt alone, the payload is dropped. -/
lemma noSize_dropped (st : ScribeLogger) (env : SendEnv) (stream : String) (line : List Nat)
    (hpid : env.pid = st.birth_pid) (hconn : st.connected = false)
    (hopen : env.reconnect.openOk = false) (hrr : env.reconnect.reportRaises = false) :
    st.log_line_no_size_limit env stream line = st.maybe_reconnect env.reconnect := by
  have herr := maybe_reconnect_err_none st env.reconnect hconn hrr
  have hc := maybe_reconnect_still_disconnected st env.reconnect hconn hopen
  simp [ScribeLogger.log_line_no_size_limit, hpid, hconn, herr, hc]

/-- Whatever the connection and send outcomes, if the process has not
forked and no status callback raises, no exception escapes
`_log_line_no_size_limit`. -/
lemma noSize_err_none (st : ScribeLogger) (env : SendEnv) (stream : String) (line : List Nat)
    (hpid : env.pid = st.birth_pid) (h1 : env.reconnect.reportRaises = false)
    (h2 : env.failReportRaises = false) (h3 : env.retryReconnect.reportRaises = false) :
    (st.log_line_no_size_limit env stream line).err = none := by
  cases hconn : st.connected
  case true =>
    cases hsend : env.sendOk
    case false =>
      rw [noSize_send_fail st env stream line hpid hconn hsend h2]
      exact maybe_reconnect_err_none _ _ rfl h3
    case true =>
      simp [noSize_happy st env stream line hpid hconn hsend]
  case false =>
    have herr := maybe_reconnect_err_none st env.reconnect hconn h1
    have hiss : (st.maybe_reconnect env.reconnect).err.isSome = false := by simp [herr]
    cases hc2 : (st.maybe_reconnect env.reconnect).st.connected
    case false =>
      simp [ScribeLogger.log_line_no_size_limit, hpid, hconn, hiss, hc2, herr]
    case true =>
      cases hsend : env.sendOk
      case false =>
        have h4 : (({ (st.maybe_reconnect env.reconnect).st with
            connected := false, last_connect_time := env.failNow } : ScribeLogger
            ).maybe_reconnect env.retryReconnect).err = none :=
          maybe_reconnect_err_none _ _ rfl h3
        simp [ScribeLogger.log_line_no_size_limit, hpid, hconn, hiss, hc2, hsend, h2, h4]
      case true =>
        simp [ScribeLogger.log_line_no_size_limit, hpid, hconn, hiss, hc2, hsend]

end Clog

/-! ## Branch lemmas for `log_line` -/

namespace Clog

/-- A line within the warning threshold goes straight to
`_log_line_no_size_limit`. -/
lemma log_line_small (st : ScribeLogger) (env : LogLineEnv) (stream : String)
    (input : LineInput)
    (hlen : (encodeLine input).length ≤ WARNING_LINE_SIZE_IN_BYTES) :
    st.log_line env stream input
      = st.log_line_no_size_limit env.send1 stream (encodeLine input) := by
  simp [ScribeLogger.log_line, hlen]

/-- A line beyond the maximum threshold: error status, then the
too-long exception; nothing else happens. -/
lemma log_line_too_long (st : ScribeLogger) (env : LogLineEnv) (stream : String)
    (input : LineInput)
    (hlen : MAX_LINE_SIZE_IN_BYTES < (encodeLine input).length)
    (hdrop : env.dropReportRaises = false) :
    st.log_line env stream input
      = ⟨st, [.statusReport true dropNoticeMsg], some (.logLineIsTooLong tooLongMsg)⟩ := by
  have hn1 : ¬((encodeLine input).length ≤ WARNING_LINE_SIZE_IN_BYTES) := by
    simp only [WARNING_LINE_SIZE_IN_BYTES]
    simp only [MAX_LINE_SIZE_IN_BYTES] at hlen
    omega
  have hn2 : ¬((encodeLine input).length ≤ MAX_LINE_SIZE_IN_BYTES) := by omega
  simp [ScribeLogger.log_line, hn1, hn2, hdrop]

end Clog

/-! ## Claims -/

namespace Clog

/-- C1: `ScribeLogger.log_line` classifies every line by its encoded byte
length against the two fixed thresholds: at most 5242880 bytes the line is
Normal and only the original line is delivered; above 5242880 and at most
52428800 it is Oversized-Allowed (the line is delivered together with one
origin report on the diagnostic stream and a non-error status notice);
above 52428800 it is Rejected (an error status, `LogLineIsTooLongError`,
nothing delivered). In particular 5242880 bytes is Normal, 5242881 is
Oversized-Allowed, 52428801 is Rejected. -/
theorem c1_size_triage (st : ScribeLogger) (env : LogLineEnv) (stream : String)
    (input : LineInput)
    (hconn : st.connected = true)
    (hpid1 : env.send1.pid = st.birth_pid) (hsend1 : env.send1.sendOk = true)
    (hpid2 : env.send2.pid = st.birth_pid) (hsend2 : env.send2.sendOk = true)
    (hov : env.oversizeReportRaises = false) (hdrop : env.dropReportRaises = false) :
    ((encodeLine input).length ≤ 5242880 →
      st.log_line env stream input
        = ⟨st, [.sent (scribify stream) (encodeLine input ++ [10])], none⟩)
    ∧ (5242880 < (encodeLine input).length → (encodeLine input).length ≤ 52428800 →
      st.log_line env stream input
        = ⟨st, [.sent (scribify stream) (encodeLine input ++ [10]),
            .sent WHO_CLOG_LARGE_LINE_STREAM
              (encodeStr (originReportJson stream (encodeLine input).length env.tb) ++ [10]),
            .statusReport false oversizeNoticeMsg], none⟩)
    ∧ (52428800 < (encodeLine input).length →
      st.log_line env stream input
        = ⟨st, [.statusReport true dropNoticeMsg], some (.logLineIsTooLong tooLongMsg)⟩) := by
  refine ⟨fun h => ?_, fun h1 h2 => ?_, fun h => ?_⟩
  · have e1 := noSize_happy st env.send1 stream (encodeLine input) hpid1 hconn hsend1
    simp [ScribeLogger.log_line, WARNING_LINE_SIZE_IN_BYTES, h, e1]
  · have hn1 : ¬((encodeLine input).length ≤ 5242880) := by omega
    have e1 := noSize_happy st env.send1 stream (encodeLine input) hpid1 hconn hsend1
    have e2 := noSize_happy st env.send2 WHO_CLOG_LARGE_LINE_STREAM
      (encodeStr (originReportJson stream (encodeLine input).length env.tb)) hpid2 hconn hsend2
    simp [ScribeLogger.log_line, WARNING_LINE_SIZE_IN_BYTES, MAX_LINE_SIZE_IN_BYTES,
      hn1, h2, e1, e2, hov, scribify_who_clog]
  · have hn1 : ¬((encodeLine input).length ≤ 5242880) := by omega
    have hn2 : ¬((encodeLine input).length ≤ 52428800) := by omega
    simp [ScribeLogger.log_line, WARNING_LINE_SIZE_IN_BYTES, MAX_LINE_SIZE_IN_BYTES,
      hn1, hn2, hdrop]

/-- Witness for C1 at a concrete oversized-allowed input of 5242881 bytes. -/
theorem c1_size_triage_witness :
    (⟨true, 0, 5, 42⟩ : ScribeLogger).log_line
        ⟨⟨42, ⟨1, true, false⟩, true, "E", "m", false, 0, ⟨0, true, false⟩⟩,
         ⟨42, ⟨1, true, false⟩, true, "E", "m", false, 0, ⟨0, true, false⟩⟩,
         "tb", false, false⟩
        "s" (.bytes (List.replicate 5242881 7))
      = ⟨⟨true, 0, 5, 42⟩,
          [.sent (scribify "s") (List.replicate 5242881 7 ++ [10]),
           .sent WHO_CLOG_LARGE_LINE_STREAM
             (encodeStr (originReportJson "s" 5242881 "tb") ++ [10]),
           .statusReport false oversizeNoticeMsg], none⟩ := by
  have hlen : (encodeLine (LineInput.bytes (List.replicate 5242881 (7 : Nat)))).length
      = 5242881 := by
    show (List.replicate 5242881 (7 : Nat)).length = 5242881
    rw [List.length_replicate]
  have h := (c1_size_triage ⟨true, 0, 5, 42⟩
    ⟨⟨42, ⟨1, true, false⟩, true, "E", "m", false, 0, ⟨0, true, false⟩⟩,
     ⟨42, ⟨1, true, false⟩, true, "E", "m", false, 0, ⟨0, true, false⟩⟩,
     "tb", false, false⟩ "s" (.bytes (List.replicate 5242881 7))
    rfl rfl rfl rfl rfl rfl rfl).2.1 (by rw [hlen]; decide) (by rw [hlen]; decide)
  rw [hlen] at h
  exact h

/-- C5: a line longer than 52428800 encoded bytes is delivered nowhere (the
trace holds no delivery at all, neither the line nor a diagnostic entry),
the status callback is invoked with an error notice, and
`LogLineIsTooLongError` is raised carrying the maximum allowed size. -/
theorem c5_too_long_rejected (st : ScribeLogger) (env : LogLineEnv) (stream : String)
    (input : LineInput)
    (hlen : 52428800 < (encodeLine input).length)
    (hdrop : env.dropReportRaises = false) :
    st.log_line env stream input
      = ⟨st, [.statusReport true dropNoticeMsg], some (.logLineIsTooLong tooLongMsg)⟩
    ∧ (st.log_line env stream input).trace.filter Ev.isDelivery = []
    ∧ tooLongMsg = "The max log line size allowed is 52428800 bytes" := by
  have h := log_line_too_long st env stream input hlen hdrop
  exact ⟨h, by simp [h, Ev.isDelivery], rfl⟩

/-- Witness for C5 at a concrete rejected input of 52428801 bytes. -/
theorem c5_too_long_rejected_witness :
    (⟨true, 0, 5, 42⟩ : ScribeLogger).log_line
        ⟨⟨42, ⟨1, true, false⟩, true, "E", "m", false, 0, ⟨0, true, false⟩⟩,
         ⟨42, ⟨1, true, false⟩, true, "E", "m", false, 0, ⟨0, true, false⟩⟩,
         "tb", false, false⟩
        "s" (.bytes (List.replicate 52428801 0))
      = ⟨⟨true, 0, 5, 42⟩, [.statusReport true dropNoticeMsg],
          some (.logLineIsTooLong tooLongMsg)⟩ := by
  have hlen : (encodeLine (LineInput.bytes (List.replicate 52428801 (0 : Nat)))).length
      = 52428801 := by
    show (List.replicate 52428801 (0 : Nat)).length = 52428801
    rw [List.length_replicate]
  exact (c5_too_long_rejected ⟨true, 0, 5, 42⟩
    ⟨⟨42, ⟨1, true, false⟩, true, "E", "m", false, 0, ⟨0, true, false⟩⟩,
     ⟨42, ⟨1, true, false⟩, true, "E", "m", false, 0, ⟨0, true, false⟩⟩,
     "tb", false, false⟩ "s" (.bytes (List.replicate 52428801 0))
    (by rw [hlen]; decide) rfl).1

end Clog

namespace Clog

/-- C2 counterexample: with the process forked (current pid 7, recorded pid
42), a call with a line of 52428801 bytes does not raise the fork-safety
error: it reports an error status and raises `LogLineIsTooLongError`,
because `log_line` triages the size before any fork check. -/
theorem c2_fork_safety_counterexample :
    (ScribeLogger.log_line ⟨true, 0, 5, 42⟩
        ⟨⟨7, ⟨1, true, false⟩, true, "E", "m", false, 0, ⟨0, true, false⟩⟩,
         ⟨7, ⟨1, true, false⟩, true, "E", "m", false, 0, ⟨0, true, false⟩⟩,
         "tb", false, false⟩
        "s" (.bytes (List.replicate 52428801 0))).err
      = some (.logLineIsTooLong tooLongMsg)
    ∧ (ScribeLogger.log_line ⟨true, 0, 5, 42⟩
        ⟨⟨7, ⟨1, true, false⟩, true, "E", "m", false, 0, ⟨0, true, false⟩⟩,
         ⟨7, ⟨1, true, false⟩, true, "E", "m", false, 0, ⟨0, true, false⟩⟩,
         "tb", false, false⟩
        "s" (.bytes (List.replicate 52428801 0))).err ≠ some .scribeIsNotForkSafe
    ∧ (ScribeLogger.log_line ⟨true, 0, 5, 42⟩
        ⟨⟨7, ⟨1, true, false⟩, true, "E", "m", false, 0, ⟨0, true, false⟩⟩,
         ⟨7, ⟨1, true, false⟩, true, "E", "m", false, 0, ⟨0, true, false⟩⟩,
         "tb", false, false⟩
        "s" (.bytes (List.replicate 52428801 0))).trace
      = [.statusReport true dropNoticeMsg] := by
  have hlen : (encodeLine (LineInput.bytes (List.replicate 52428801 (0 : Nat)))).length
      = 52428801 := by
    show (List.replicate 52428801 (0 : Nat)).length = 52428801
    rw [List.length_replicate]
  have h := log_line_too_long ⟨true, 0, 5, 42⟩
    ⟨⟨7, ⟨1, true, false⟩, true, "E", "m", false, 0, ⟨0, true, false⟩⟩,
     ⟨7, ⟨1, true, false⟩, true, "E", "m", false, 0, ⟨0, true, false⟩⟩,
     "tb", false, false⟩ "s" (.bytes (List.replicate 52428801 0))
    (by rw [MAX_LINE_SIZE_IN_BYTES, hlen]; decide) rfl
  refine ⟨by rw [h], by rw [h]; decide, by rw [h]⟩

/-- C2 amended: after a fork (current pid differs from the recorded one),
every `log_line` call whose encoded line is at most 52428800 bytes raises
`ScribeIsNotForkSafeError` at once and performs no I/O; a longer line
instead reports an error status and raises `LogLineIsTooLongError`,
without reaching the fork check. -/
theorem c2_fork_safety (st : ScribeLogger) (env : LogLineEnv) (stream : String)
    (input : LineInput)
    (hpid : env.send1.pid ≠ st.birth_pid)
    (hlen : (encodeLine input).length ≤ 52428800) :
    st.log_line env stream input = ⟨st, [], some .scribeIsNotForkSafe⟩ := by
  by_cases hw : (encodeLine input).length ≤ 5242880
  · rw [log_line_small st env stream input hw]
    exact noSize_fork st env.send1 stream (encodeLine input) hpid
  · have e1 := noSize_fork st env.send1 stream (encodeLine input) hpid
    simp [ScribeLogger.log_line, WARNING_LINE_SIZE_IN_BYTES, MAX_LINE_SIZE_IN_BYTES,
      hw, hlen, e1]

/-- Witness for the amended C2 at a concrete small line. -/
theorem c2_fork_safety_witness :
    ScribeLogger.log_line ⟨true, 0, 5, 42⟩
        ⟨⟨7, ⟨1, true, false⟩, true, "E", "m", false, 0, ⟨0, true, false⟩⟩,
         ⟨7, ⟨1, true, false⟩, true, "E", "m", false, 0, ⟨0, true, false⟩⟩,
         "tb", false, false⟩
        "s" (.bytes [1, 2, 3])
      = ⟨⟨true, 0, 5, 42⟩, [], some .scribeIsNotForkSafe⟩ :=
  c2_fork_safety ⟨true, 0, 5, 42⟩
    ⟨⟨7, ⟨1, true, false⟩, true, "E", "m", false, 0, ⟨0, true, false⟩⟩,
     ⟨7, ⟨1, true, false⟩, true, "E", "m", false, 0, ⟨0, true, false⟩⟩,
     "tb", false, false⟩ "s" (.bytes [1, 2, 3]) (by decide) (by decide)

/-- C3: when the RPC send fails, `log_line` reports an error status naming
the exception type and text, closes the transport (state Disconnected, a
close event), records `last_connect_time = now`, and immediately invokes
the throttle-gated reconnect attempt; if the status callback itself
raises, the transport is still closed and the timestamp still recorded,
but the reconnect attempt is skipped and the callback's exception escapes
to the caller. -/
theorem c3_send_failure (st : ScribeLogger) (env : LogLineEnv) (stream : String)
    (input : LineInput)
    (hconn : st.connected = true)
    (hpid : env.send1.pid = st.birth_pid) (hsend : env.send1.sendOk = false)
    (hlen : (encodeLine input).length ≤ 5242880) :
    (env.send1.failReportRaises = false →
      st.log_line env stream input
        = ⟨(({ st with connected := false, last_connect_time := env.send1.failNow
              } : ScribeLogger).maybe_reconnect env.send1.retryReconnect).st,
            [.sendFailed (scribify stream) (encodeLine input ++ [10]),
              .statusReport true (sendFailMsg env.send1.excType env.send1.excMsg),
              .closedTransport]
              ++ (({ st with connected := false, last_connect_time := env.send1.failNow
                  } : ScribeLogger).maybe_reconnect env.send1.retryReconnect).trace,
            (({ st with connected := false, last_connect_time := env.send1.failNow
              } : ScribeLogger).maybe_reconnect env.send1.retryReconnect).err⟩)
    ∧ (env.send1.failReportRaises = true →
      st.log_line env stream input
        = ⟨{ st with connected := false, last_connect_time := env.send1.failNow },
            [.sendFailed (scribify stream) (encodeLine input ++ [10]), .closedTransport],
            some .reportRaised⟩) := by
  constructor
  · intro hf
    rw [log_line_small st env stream input hlen]
    exact noSize_send_fail st env.send1 stream (encodeLine input) hpid hconn hsend hf
  · intro hf
    rw [log_line_small st env stream input hlen]
    exact noSize_send_fail_raises st env.send1 stream (encodeLine input) hpid hconn hsend hf

/-- Witness for C3: a concrete failed send whose post-failure reconnect is
throttled away (the timestamp was just stamped), with the callback not
raising. -/
theorem c3_send_failure_witness :
    ScribeLogger.log_line ⟨true, 0, 5, 42⟩
        ⟨⟨42, ⟨1, true, false⟩, false, "SomeError", "boom", false, 100, ⟨101, true, false⟩⟩,
         ⟨42, ⟨1, true, false⟩, true, "E", "m", false, 0, ⟨0, true, false⟩⟩,
         "tb", false, false⟩
        "s" (.bytes [1, 2, 3])
      = ⟨⟨false, 100, 5, 42⟩,
          [.sendFailed (scribify "s") [1, 2, 3, 10],
            .statusReport true (sendFailMsg "SomeError" "boom"),
            .closedTransport], none⟩ := by
  have h := (c3_send_failure ⟨true, 0, 5, 42⟩
    ⟨⟨42, ⟨1, true, false⟩, false, "SomeError", "boom", false, 100, ⟨101, true, false⟩⟩,
     ⟨42, ⟨1, true, false⟩, true, "E", "m", false, 0, ⟨0, true, false⟩⟩,
     "tb", false, false⟩ "s" (.bytes [1, 2, 3]) rfl rfl rfl (by decide)).1 rfl
  exact h.trans (by decide)

/-- C4: while disconnected, a reconnect attempt opens the transport only
when `now - last_connect_time > retry_interval` and is a no-op otherwise;
on a failed attempt the state stays disconnected with
`last_connect_time = now` and an error status is reported; hence a second
attempt issued less than `retry_interval` after a failed first one makes
no connection attempt at all. -/
theorem c4_reconnect_throttle (st : ScribeLogger) (env env2 : ReconnectEnv)
    (hconn : st.connected = false) :
    (¬(env.now - st.last_connect_time > st.retry_interval) →
      st.maybe_reconnect env = ⟨st, [], none⟩)
    ∧ (env.now - st.last_connect_time > st.retry_interval → env.openOk = false →
        env.reportRaises = false →
      st.maybe_reconnect env
        = ⟨{ st with last_connect_time := env.now },
            [.openAttempt false, .statusReport true connectFailMsg], none⟩)
    ∧ (env.now - st.last_connect_time > st.retry_interval → env.openOk = false →
        env.reportRaises = false → env2.now - env.now < st.retry_interval →
      (st.maybe_reconnect env).st.maybe_reconnect env2
        = ⟨(st.maybe_reconnect env).st, [], none⟩) := by
  refine ⟨fun h => ?_, fun h ho hr => ?_, fun h ho hr h2 => ?_⟩
  · rw [ScribeLogger.maybe_reconnect, if_neg (by simp [hconn]), if_neg h]
  · rw [maybe_reconnect_fail_eq st env hconn ho hr, if_pos h]
  · rw [maybe_reconnect_fail_eq st env hconn ho hr, if_pos h]
    rw [ScribeLogger.maybe_reconnect, if_neg (by simp [hconn])]
    rw [if_neg (by simp; omega)]

/-- Witness for C4: first attempt at time 10 (interval 5, last attempt 0)
fails; the second at time 12 is within the interval and is skipped. -/
theorem c4_reconnect_throttle_witness :
    ((⟨false, 0, 5, 42⟩ : ScribeLogger).maybe_reconnect ⟨10, false, false⟩
      ).st.maybe_reconnect ⟨12, true, false⟩
      = ⟨((⟨false, 0, 5, 42⟩ : ScribeLogger).maybe_reconnect ⟨10, false, false⟩).st,
          [], none⟩ :=
  (c4_reconnect_throttle ⟨false, 0, 5, 42⟩ ⟨10, false, false⟩ ⟨12, true, false⟩ rfl).2.2
    (by decide) rfl rfl (by decide)

end Clog

namespace Clog

/-- A successful delivery addressed to the diagnostic stream. -/
def Ev.isDiagDelivery : Ev → Bool
  | .sent c _ => c == WHO_CLOG_LARGE_LINE_STREAM
  | _ => false

/-- C6: a line of more than 5242880 and at most 52428800 encoded bytes is
delivered, and exactly one JSON origin report (stream name, byte length,
stack trace) is additionally delivered to the fixed diagnostic stream
tmp_who_clog_large_line, followed by a non-error status notice (the
diagnostic delivery is counted as exactly one whenever the logged stream
is not itself the diagnostic stream). -/
theorem c6_oversized_origin_report (st : ScribeLogger) (env : LogLineEnv) (stream : String)
    (input : LineInput)
    (hconn : st.connected = true)
    (hpid1 : env.send1.pid = st.birth_pid) (hsend1 : env.send1.sendOk = true)
    (hpid2 : env.send2.pid = st.birth_pid) (hsend2 : env.send2.sendOk = true)
    (hov : env.oversizeReportRaises = false)
    (h1 : 5242880 < (encodeLine input).length)
    (h2 : (encodeLine input).length ≤ 52428800) :
    st.log_line env stream input
      = ⟨st, [.sent (scribify stream) (encodeLine input ++ [10]),
          .sent WHO_CLOG_LARGE_LINE_STREAM
            (encodeStr (originReportJson stream (encodeLine input).length env.tb) ++ [10]),
          .statusReport false oversizeNoticeMsg], none⟩
    ∧ (scribify stream ≠ WHO_CLOG_LARGE_LINE_STREAM →
        ((st.log_line env stream input).trace.countP (fun e => e.isDiagDelivery)) = 1) := by
  have hn1 : ¬((encodeLine input).length ≤ 5242880) := by omega
  have e1 := noSize_happy st env.send1 stream (encodeLine input) hpid1 hconn hsend1
  have e2 := noSize_happy st env.send2 WHO_CLOG_LARGE_LINE_STREAM
    (encodeStr (originReportJson stream (encodeLine input).length env.tb)) hpid2 hconn hsend2
  have h : st.log_line env stream input
      = ⟨st, [.sent (scribify stream) (encodeLine input ++ [10]),
          .sent WHO_CLOG_LARGE_LINE_STREAM
            (encodeStr (originReportJson stream (encodeLine input).length env.tb) ++ [10]),
          .statusReport false oversizeNoticeMsg], none⟩ := by
    simp [ScribeLogger.log_line, WARNING_LINE_SIZE_IN_BYTES, MAX_LINE_SIZE_IN_BYTES,
      hn1, h2, e1, e2, hov, scribify_who_clog]
  refine ⟨h, fun hne => ?_⟩
  rw [h]
  simp [List.countP_cons, Ev.isDiagDelivery, hne]

/-- Witness for C6 at a concrete line of 6000000 bytes. -/
theorem c6_oversized_origin_report_witness :
    ScribeLogger.log_line ⟨true, 0, 5, 42⟩
        ⟨⟨42, ⟨1, true, false⟩, true, "E", "m", false, 0, ⟨0, true, false⟩⟩,
         ⟨42, ⟨1, true, false⟩, true, "E", "m", false, 0, ⟨0, true, false⟩⟩,
         "trace", false, false⟩
        "mystream" (.bytes (List.replicate 6000000 1))
      = ⟨⟨true, 0, 5, 42⟩,
          [.sent (scribify "mystream") (List.replicate 6000000 1 ++ [10]),
           .sent WHO_CLOG_LARGE_LINE_STREAM
             (encodeStr (originReportJson "mystream" 6000000 "trace") ++ [10]),
           .statusReport false oversizeNoticeMsg], none⟩ := by
  have hlen : (encodeLine (LineInput.bytes (List.replicate 6000000 (1 : Nat)))).length
      = 6000000 := by
    show (List.replicate 6000000 (1 : Nat)).length = 6000000
    rw [List.length_replicate]
  have h := (c6_oversized_origin_report ⟨true, 0, 5, 42⟩
    ⟨⟨42, ⟨1, true, false⟩, true, "E", "m", false, 0, ⟨0, true, false⟩⟩,
     ⟨42, ⟨1, true, false⟩, true, "E", "m", false, 0, ⟨0, true, false⟩⟩,
     "trace", false, false⟩ "mystream" (.bytes (List.replicate 6000000 1))
    rfl rfl rfl rfl rfl rfl (by rw [hlen]; decide) (by rw [hlen]; decide)).1
  rw [hlen] at h
  exact h

end Clog

namespace Clog

/-- No call changes the recorded birth pid: reconnecting preserves it. -/
lemma maybe_reconnect_birth_pid (st : ScribeLogger) (env : ReconnectEnv) :
    (st.maybe_reconnect env).st.birth_pid = st.birth_pid := by
  rw [ScribeLogger.maybe_reconnect]
  split_ifs <;> rfl

/-- No call changes the recorded birth pid: `_log_line_no_size_limit`
preserves it. -/
lemma noSize_birth_pid (st : ScribeLogger) (env : SendEnv) (stream : String)
    (line : List Nat) :
    (st.log_line_no_size_limit env stream line).st.birth_pid = st.birth_pid := by
  simp only [ScribeLogger.log_line_no_size_limit]
  split_ifs <;> simp [maybe_reconnect_birth_pid]

/-- C7: connection failures are invisible to the caller of `log_line`
whenever the process has not forked and no status callback raises: no
exception escapes for any line within the maximum size, regardless of
connection and send outcomes; when the sink is disconnected and the
reconnect cannot open, nothing is delivered and (when the throttle lets
the attempt run) the failure is reported through the status callback; and
a send failure is likewise reported through the status callback. -/
theorem c7_connection_failures_swallowed (st : ScribeLogger) (env : LogLineEnv)
    (stream : String) (input : LineInput)
    (hpid1 : env.send1.pid = st.birth_pid) (hpid2 : env.send2.pid = st.birth_pid)
    (ha1 : env.send1.reconnect.reportRaises = false)
    (ha2 : env.send1.failReportRaises = false)
    (ha3 : env.send1.retryReconnect.reportRaises = false)
    (hb1 : env.send2.reconnect.reportRaises = false)
    (hb2 : env.send2.failReportRaises = false)
    (hb3 : env.send2.retryReconnect.reportRaises = false)
    (hov : env.oversizeReportRaises = false)
    (hlen : (encodeLine input).length ≤ 52428800) :
    (st.log_line env stream input).err = none
    ∧ (st.connected = false → env.send1.reconnect.openOk = false →
        (encodeLine input).length ≤ 5242880 →
        (st.log_line env stream input).trace.filter Ev.isDelivery = []
        ∧ (env.send1.reconnect.now - st.last_connect_time > st.retry_interval →
            Ev.statusReport true connectFailMsg ∈ (st.log_line env stream input).trace))
    ∧ (st.connected = true → env.send1.sendOk = false →
        (encodeLine input).length ≤ 5242880 →
        Ev.statusReport true (sendFailMsg env.send1.excType env.send1.excMsg)
          ∈ (st.log_line env stream input).trace) := by
  refine ⟨?_, fun hc ho hw => ?_, fun hc hs hw => ?_⟩
  · by_cases hw : (encodeLine input).length ≤ 5242880
    · rw [log_line_small st env stream input hw]
      exact noSize_err_none st env.send1 stream (encodeLine input) hpid1 ha1 ha2 ha3
    · have e1 := noSize_err_none st env.send1 stream (encodeLine input) hpid1 ha1 ha2 ha3
      have hpidb : env.send2.pid
          = (st.log_line_no_size_limit env.send1 stream (encodeLine input)).st.birth_pid := by
        rw [noSize_birth_pid]; exact hpid2
      have e2 := noSize_err_none
        (st.log_line_no_size_limit env.send1 stream (encodeLine input)).st env.send2
        WHO_CLOG_LARGE_LINE_STREAM
        (encodeStr (originReportJson stream (encodeLine input).length env.tb)) hpidb hb1 hb2 hb3
      simp [ScribeLogger.log_line, WARNING_LINE_SIZE_IN_BYTES, MAX_LINE_SIZE_IN_BYTES,
        hw, hlen, e1, e2, hov]
  · rw [log_line_small st env stream input hw,
      noSize_dropped st env.send1 stream (encodeLine input) hpid1 hc ho ha1,
      maybe_reconnect_fail_eq st env.send1.reconnect hc ho ha1]
    constructor
    · split_ifs with ht
      · simp [Ev.isDelivery]
      · simp
    · intro ht
      rw [if_pos ht]
      simp
  · rw [log_line_small st env stream input hw,
      noSize_send_fail st env.send1 stream (encodeLine input) hpid1 hc hs ha2]
    simp

/-- Witness for C7: a concrete disconnected sink whose reconnect fails; the
call returns no error, delivers nothing and reports the failure. -/
theorem c7_connection_failures_swallowed_witness :
    (ScribeLogger.log_line ⟨false, 0, 5, 42⟩
        ⟨⟨42, ⟨10, false, false⟩, true, "E", "m", false, 0, ⟨0, true, false⟩⟩,
         ⟨42, ⟨1, true, false⟩, true, "E", "m", false, 0, ⟨0, true, false⟩⟩,
         "tb", false, false⟩
        "s" (.bytes [1, 2, 3])).err = none
    ∧ (ScribeLogger.log_line ⟨false, 0, 5, 42⟩
        ⟨⟨42, ⟨10, false, false⟩, true, "E", "m", false, 0, ⟨0, true, false⟩⟩,
         ⟨42, ⟨1, true, false⟩, true, "E", "m", false, 0, ⟨0, true, false⟩⟩,
         "tb", false, false⟩
        "s" (.bytes [1, 2, 3])).trace.filter Ev.isDelivery = []
    ∧ Ev.statusReport true connectFailMsg ∈
        (ScribeLogger.log_line ⟨false, 0, 5, 42⟩
          ⟨⟨42, ⟨10, false, false⟩, true, "E", "m", false, 0, ⟨0, true, false⟩⟩,
           ⟨42, ⟨1, true, false⟩, true, "E", "m", false, 0, ⟨0, true, false⟩⟩,
           "tb", false, false⟩
          "s" (.bytes [1, 2, 3])).trace := by
  have h := c7_connection_failures_swallowed ⟨false, 0, 5, 42⟩
    ⟨⟨42, ⟨10, false, false⟩, true, "E", "m", false, 0, ⟨0, true, false⟩⟩,
     ⟨42, ⟨1, true, false⟩, true, "E", "m", false, 0, ⟨0, true, false⟩⟩,
     "tb", false, false⟩ "s" (.bytes [1, 2, 3])
    rfl rfl rfl rfl rfl rfl rfl rfl rfl (by decide)
  have hb := h.2.1 rfl rfl (by decide)
  exact ⟨h.1, hb.1, hb.2 (by decide)⟩

end Clog

namespace Clog

/-- C10 (implicit): for an oversized-but-allowed line, the diagnostics run
unconditionally on delivery success: even when the sink is disconnected
and the (throttle-allowed) reconnect attempt fails, so that the original
line is dropped without ever being sent, `log_line` still builds the JSON
origin report, still runs its delivery call to the diagnostic stream, and
still reports the non-error notice, raising nothing. -/
theorem c10_diagnostics_despite_drop (st : ScribeLogger) (env : LogLineEnv)
    (stream : String) (input : LineInput)
    (hconn : st.connected = false)
    (hpid1 : env.send1.pid = st.birth_pid) (hpid2 : env.send2.pid = st.birth_pid)
    (hopen : env.send1.reconnect.openOk = false)
    (hrr : env.send1.reconnect.reportRaises = false)
    (hth : env.send1.reconnect.now - st.last_connect_time > st.retry_interval)
    (hb1 : env.send2.reconnect.reportRaises = false)
    (hb2 : env.send2.failReportRaises = false)
    (hb3 : env.send2.retryReconnect.reportRaises = false)
    (hov : env.oversizeReportRaises = false)
    (h1 : 5242880 < (encodeLine input).length)
    (h2 : (encodeLine input).length ≤ 52428800) :
    st.log_line env stream input
      = ⟨(({ st with last_connect_time := env.send1.reconnect.now } : ScribeLogger
            ).log_line_no_size_limit env.send2 WHO_CLOG_LARGE_LINE_STREAM
              (encodeStr (originReportJson stream (encodeLine input).length env.tb))).st,
          [.openAttempt false, .statusReport true connectFailMsg]
            ++ (({ st with last_connect_time := env.send1.reconnect.now } : ScribeLogger
              ).log_line_no_size_limit env.send2 WHO_CLOG_LARGE_LINE_STREAM
                (encodeStr (originReportJson stream (encodeLine input).length env.tb))).trace
            ++ [.statusReport false oversizeNoticeMsg], none⟩ := by
  have hw : ¬((encodeLine input).length ≤ 5242880) := by omega
  have e1 : st.log_line_no_size_limit env.send1 stream (encodeLine input)
      = ⟨{ st with last_connect_time := env.send1.reconnect.now },
          [.openAttempt false, .statusReport true connectFailMsg], none⟩ := by
    rw [noSize_dropped st env.send1 stream (encodeLine input) hpid1 hconn hopen hrr,
      maybe_reconnect_fail_eq st env.send1.reconnect hconn hopen hrr, if_pos hth]
  have hpidb : env.send2.pid
      = ({ st with last_connect_time := env.send1.reconnect.now } : ScribeLogger).birth_pid :=
    hpid2
  have e2 := noSize_err_none ({ st with last_connect_time := env.send1.reconnect.now })
    env.send2 WHO_CLOG_LARGE_LINE_STREAM
    (encodeStr (originReportJson stream (encodeLine input).length env.tb)) hpidb hb1 hb2 hb3
  simp [ScribeLogger.log_line, WARNING_LINE_SIZE_IN_BYTES, MAX_LINE_SIZE_IN_BYTES,
    hw, h2, e1, e2, hov]

/-- Witness for C10: disconnected sink, first reconnect fails at time 10,
the line of 6000000 bytes is dropped, yet the origin report is delivered
after a successful reconnect at time 100 and the notice is reported. -/
theorem c10_diagnostics_despite_drop_witness :
    ScribeLogger.log_line ⟨false, 0, 5, 42⟩
        ⟨⟨42, ⟨10, false, false⟩, true, "E", "m", false, 0, ⟨0, true, false⟩⟩,
         ⟨42, ⟨100, true, false⟩, true, "E", "m", false, 0, ⟨0, true, false⟩⟩,
         "tb", false, false⟩
        "s" (.bytes (List.replicate 6000000 1))
      = ⟨⟨true, 10, 5, 42⟩,
          [.openAttempt false, .statusReport true connectFailMsg, .openAttempt true,
           .sent WHO_CLOG_LARGE_LINE_STREAM
             (encodeStr (originReportJson "s" 6000000 "tb") ++ [10]),
           .statusReport false oversizeNoticeMsg], none⟩ := by
  have hlen : (encodeLine (LineInput.bytes (List.replicate 6000000 (1 : Nat)))).length
      = 6000000 := by
    show (List.replicate 6000000 (1 : Nat)).length = 6000000
    rw [List.length_replicate]
  have h := c10_diagnostics_despite_drop ⟨false, 0, 5, 42⟩
    ⟨⟨42, ⟨10, false, false⟩, true, "E", "m", false, 0, ⟨0, true, false⟩⟩,
     ⟨42, ⟨100, true, false⟩, true, "E", "m", false, 0, ⟨0, true, false⟩⟩,
     "tb", false, false⟩ "s" (.bytes (List.replicate 6000000 1))
    rfl rfl rfl rfl rfl (by decide) rfl rfl rfl rfl
    (by rw [hlen]; decide) (by rw [hlen]; decide)
  rw [hlen] at h
  refine h.trans ?_
  decide

end Clog

namespace Clog

/-- The sanitizer's replacement character is itself allowed, so sanitized
characters are always allowed. -/
lemma scribifyAllowed_scribifyChar (c : Char) : scribifyAllowed (scribifyChar c) = true := by
  rw [scribifyChar]
  split_ifs with h
  · exact h
  · decide

/-- Sanitizing a character twice is the same as sanitizing it once. -/
lemma scribifyChar_idem (c : Char) : scribifyChar (scribifyChar c) = scribifyChar c := by
  by_cases h : scribifyAllowed c
  · simp [scribifyChar, h]
  · rw [show scribifyChar c = '_' from by simp [scribifyChar, h]]
    decide

/-- Sanitizing a character list twice is the same as sanitizing it once. -/
lemma map_scribifyChar_idem (l : List Char) :
    (l.map scribifyChar).map scribifyChar = l.map scribifyChar := by
  induction l with
  | nil => rfl
  | cons a t ih => simp [scribifyChar_idem, ih]

/-- Every character of a sanitized character list is allowed. -/
lemma all_map_scribifyChar (l : List Char) :
    (l.map scribifyChar).all scribifyAllowed = true := by
  induction l with
  | nil => rfl
  | cons a t ih => simp [scribifyAllowed_scribifyChar, ih]

/-- C8: the stream-name sanitizer is total and pure: it preserves the
character count of every string, produces only characters from
[A-Za-z0-9_-], is idempotent, and maps the two reference examples as the
test suite asserts. -/
theorem c8_scribify_sanitizer :
    (∀ s : String, (scribify s).length = s.length)
    ∧ (∀ s : String, (scribify s).data.all scribifyAllowed = true)
    ∧ (∀ s : String, scribify (scribify s) = scribify s)
    ∧ scribify "this is a test" = "this_is_a_test"
    ∧ scribify "this\x00is a-test\n\n" = "this_is_a-test__" := by
  refine ⟨fun s => ?_, fun s => all_map_scribifyChar s.data, fun s => ?_, by decide, by decide⟩
  · show (s.data.map scribifyChar).length = s.data.length
    rw [List.length_map]
  · show (⟨(s.data.map scribifyChar).map scribifyChar⟩ : String) = ⟨s.data.map scribifyChar⟩
    rw [map_scribifyChar_idem]

/-- One write appends the encoded line plus a newline to the stream's file,
creating it first when needed. -/
lemma fileContents_cons (t : String) (c : List Nat) (rest : List (String × List Nat))
    (stream : String) :
    fileContents ((t, c) :: rest) stream
      = if t = stream then some c else fileContents rest stream := by
  by_cases h : t = stream
  · simp [fileContents, List.find?, h]
  · have hbeq : (t == stream) = false := by simp [h]
    simp [fileContents, List.find?, hbeq, h]

/-- Appending to the registry reads back as appending to the (possibly
empty) previous contents. -/
lemma fileAppend_contents (files : List (String × List Nat)) (stream : String)
    (bytes : List Nat) :
    fileContents (fileAppend files stream bytes) stream
      = some ((fileContents files stream).getD [] ++ bytes) := by
  induction files with
  | nil => simp [fileAppend, fileContents, List.find?]
  | cons p rest ih =>
    obtain ⟨t, c⟩ := p
    by_cases h : t = stream
    · rw [fileAppend, if_pos h, fileContents_cons, if_pos h, fileContents_cons, if_pos h]
      rfl
    · rw [fileAppend, if_neg h, fileContents_cons, if_neg h, fileContents_cons, if_neg h]
      exact ih

/-- C9: each `FileLogger.log_line` appends the byte-encoded line followed
by a single newline to the lazily opened per-stream resource, in call
order; in particular writing "First Line." then "Second Line." to stream
"first" and closing yields exactly the bytes of
"First Line.\nSecond Line.\n". -/
theorem c9_file_sink_round_trip :
    (∀ (fl : FileLogger) (stream : String) (input : LineInput),
      fileContents (fl.log_line stream input).stream_files stream
        = some ((fileContents fl.stream_files stream).getD []
            ++ (encodeLine input ++ [10])))
    ∧ fileContents
        ((((FileLogger.log_line ⟨[]⟩ "first" (.text "First Line.")).log_line
            "first" (.text "Second Line.")).close).stream_files) "first"
        = some (encodeStr "First Line.\nSecond Line.\n") := by
  refine ⟨fun fl stream input => fileAppend_contents _ _ _, by decide⟩

end Clog
